import Mathlib

/-!
Verification of the Genesis backend (job orchestration subsystem).

Shallow embedding of the Rust sources under `src/backend/src/`:
`models.rs` (data model), `database.rs` (partial-update semantics of the
job store), `main.rs` (submit handler, asynchronous processing task,
health endpoint), `validation.rs` (request validation and rate limiter),
and `health.rs` (health aggregator).

Machine integers are modelled as `Nat`; instants in time are `Nat`
timestamps; `serde_json::Value` is modelled by the inductive `JsonVal`;
fallible operations return `Except`/`Option`; the outcomes of external
effects (database success, generation-service response, health probes)
are explicit parameters.
-/

namespace Genesis

/-- `ProjectStatus` from `models.rs`. -/
inductive ProjectStatus
  | Pending
  | Generating
  | Completed
  | Failed
deriving DecidableEq, Repr

/-- `GeneratedFile` from `models.rs`; `DateTime<Utc>` modelled as a `Nat` timestamp. -/
structure GeneratedFile where
  name : String
  content : String
  language : String
  size : Option Nat
  last_modified : Option Nat
deriving DecidableEq, Repr

/-- `serde_json::Value`: untyped JSON as parsed by the backend. -/
inductive JsonVal
  | null
  | bool (b : Bool)
  | num (n : Int)
  | str (s : String)
  | arr (elems : List JsonVal)
  | obj (fields : List (String × JsonVal))

/-- `Value::get(key)` on a JSON object (`None` on any other shape). -/
def JsonVal.get : JsonVal → String → Option JsonVal
  | .obj fields, key => (fields.find? (fun p => decide (p.1 = key))).map Prod.snd
  | _, _ => none

/-- `Value::as_str`. -/
def JsonVal.as_str : JsonVal → Option String
  | .str s => some s
  | _ => none

/-- `Value::as_array`. -/
def JsonVal.as_array : JsonVal → Option (List JsonVal)
  | .arr elems => some elems
  | _ => none

/-- `ProjectRecord` from `models.rs`; `ObjectId` modelled as `String`,
timestamps as `Nat`, `metadata` as optional `JsonVal`. -/
structure ProjectRecord where
  id : Option String
  project_id : String
  prompt : String
  files : List GeneratedFile
  output : String
  status : ProjectStatus
  created_at : Nat
  updated_at : Nat
  backend : String
  metadata : Option JsonVal

/-- `ProjectRecord::new` from `models.rs`: the record built at job creation.
Note the source initialises `status` to `ProjectStatus::Generating`. -/
def ProjectRecord.new (project_id prompt backend : String) (now : Nat) : ProjectRecord :=
  { id := none
    project_id := project_id
    prompt := prompt
    files := []
    output := ""
    status := ProjectStatus.Generating
    created_at := now
    updated_at := now
    backend := backend
    metadata := none }

/-- `ProjectUpdate` from `models.rs`: a partial update document. -/
structure ProjectUpdate where
  status : Option ProjectStatus
  files : Option (List GeneratedFile)
  output : Option String
  metadata : Option JsonVal

/-- `DatabaseService::update_project` from `database.rs`: the `$set` document
contains exactly the fields present in the update, plus a refreshed
`updated_at`; all other fields of the stored record are untouched. -/
def applyProjectUpdate (r : ProjectRecord) (u : ProjectUpdate) (now : Nat) : ProjectRecord :=
  { r with
    status := u.status.getD r.status
    files := u.files.getD r.files
    output := u.output.getD r.output
    metadata := match u.metadata with
      | some m => some m
      | none => r.metadata
    updated_at := now }

/-- `GenerateRequest` from `models.rs` (the type the `/generate` route extracts). -/
structure GenerateRequest where
  prompt : String
  backend : Option String

/-- Result of the `generate_project` handler in `main.rs`: the record passed to
`DatabaseService::create_project`, whether the insert succeeded, the arguments
of the spawned `generate_project_async` task (if one was spawned), and the
HTTP status code of the reply. -/
structure SubmitOutcome where
  insertAttempt : ProjectRecord
  persisted : Bool
  spawned : Option (String × String × String)
  httpStatus : Nat

/-- `generate_project` from `main.rs`: builds the record via `ProjectRecord::new`
(backend defaulted to "ollama"), stores it, and on success spawns
`generate_project_async` with the same id, prompt and defaulted backend.
No validation is performed anywhere in this handler. `dbCreateOk` is the
outcome of the `create_project` call. -/
def generate_project (data : GenerateRequest) (project_id : String) (now : Nat)
    (dbCreateOk : Bool) : SubmitOutcome :=
  let record := ProjectRecord.new project_id data.prompt (data.backend.getD "ollama") now
  if dbCreateOk then
    { insertAttempt := record
      persisted := true
      spawned := some (project_id, data.prompt, data.backend.getD "ollama")
      httpStatus := 202 }
  else
    { insertAttempt := record
      persisted := false
      spawned := none
      httpStatus := 500 }

/-- `GenerateRequest` from `validation.rs` (a distinct struct from the one in
`models.rs`; this module is not referenced from `main.rs`). -/
structure VGenerateRequest where
  prompt : String
  backend : Option String

/-- `BACKEND_REGEX` from `validation.rs`: `^(ollama|openai)$`. -/
def backendRegexMatches (s : String) : Bool :=
  s == "ollama" || s == "openai"

/-- The `#[validate(length(min = 10, max = 2000))]` constraint on `prompt`. -/
def promptLengthOk (p : String) : Bool :=
  decide (10 ≤ p.length) && decide (p.length ≤ 2000)

/-- The field error messages collected by `req.validate()` in
`validate_generate_request` (`validation.rs`). -/
def fieldErrorMessages (req : VGenerateRequest) : List String :=
  (if promptLengthOk req.prompt then []
   else ["prompt: Prompt must be between 10 and 2000 characters"]) ++
  (match req.backend with
   | none => []
   | some b => if backendRegexMatches b then []
       else ["backend: Backend must be 'ollama' or 'openai'"])

/-- `harmful_keywords` from `validation.rs`. -/
def harmful_keywords : List String :=
  ["delete", "drop", "remove", "system", "admin"]

/-- Rust `str::contains` for a nonempty substring pattern. -/
def containsSub (s pat : String) : Bool :=
  2 ≤ (s.splitOn pat).length

/-- `validate_generate_request` from `validation.rs`: field validation, then the
trimmed-empty check, then the harmful-keyword check; errors become
`GenesisError::ValidationError` messages. -/
def validate_generate_request (req : VGenerateRequest) : Except String VGenerateRequest :=
  if fieldErrorMessages req ≠ [] then
    Except.error (String.intercalate ", " (fieldErrorMessages req))
  else if req.prompt.trim == "" then
    Except.error "Prompt cannot be empty"
  else if harmful_keywords.any (fun k => containsSub req.prompt.toLower k) then
    Except.error "Prompt contains potentially harmful keywords"
  else
    Except.ok req

/-- Outcome of the AI-core call in `generate_project_async` (`main.rs`):
the `send()` future fails, the status is non-success, the body fails to parse
as JSON, or a parsed JSON body. -/
inductive AiCoreResponse
  | sendError
  | badStatus
  | unparseable
  | json (data : JsonVal)

/-- One file entry of the response, as read by `update_project_with_results`:
kept only when `name`, `content` and `language` are all present strings. -/
def parseFile (j : JsonVal) : Option GeneratedFile :=
  match (j.get "name").bind JsonVal.as_str,
        (j.get "content").bind JsonVal.as_str,
        (j.get "language").bind JsonVal.as_str with
  | some n, some c, some l =>
      some { name := n, content := c, language := l, size := none, last_modified := none }
  | _, _, _ => none

/-- The file list extracted by `update_project_with_results` from
`data.data.files`; entries missing a required string field are skipped, and a
missing or non-array path yields the empty list. -/
def extractFiles (data : JsonVal) : List GeneratedFile :=
  match ((data.get "data").bind (fun d => d.get "files")).bind JsonVal.as_array with
  | some elems => elems.filterMap parseFile
  | none => []

/-- The output string extracted by `update_project_with_results` from
`data.data.output`, defaulting to the empty string. -/
def extractOutput (data : JsonVal) : String :=
  (((data.get "data").bind (fun d => d.get "output")).bind JsonVal.as_str).getD ""

/-- The update persisted on the success path of `update_project_with_results`:
status `Completed`, files and output extracted from the response, together in
one `ProjectUpdate`. -/
def completedUpdate (data : JsonVal) : ProjectUpdate :=
  { status := some ProjectStatus.Completed
    files := some (extractFiles data)
    output := some (extractOutput data)
    metadata := none }

/-- The update persisted by `mark_project_failed`: status `Failed`, output
overwritten with the failure description, files and metadata absent. -/
def failedUpdate (msg : String) : ProjectUpdate :=
  { status := some ProjectStatus.Failed
    files := none
    output := some msg
    metadata := none }

/-- The first update of `generate_project_async`: status `Generating` only. -/
def generatingUpdate : ProjectUpdate :=
  { status := some ProjectStatus.Generating
    files := none
    output := none
    metadata := none }

/-- The updates successfully persisted by `mark_project_failed` (`main.rs`):
one `Failed` update when its database call succeeds, none otherwise. -/
def mark_project_failed_updates (msg : String) (dbOk : Bool) : List ProjectUpdate :=
  if dbOk then [failedUpdate msg] else []

/-- The updates successfully persisted by `update_project_with_results`
(`main.rs`): the single `Completed` update when its database call succeeds;
on database failure it falls back to `mark_project_failed`. -/
def update_project_with_results_updates (data : JsonVal) (completeOk failOk : Bool) :
    List ProjectUpdate :=
  if completeOk then [completedUpdate data]
  else mark_project_failed_updates "Failed to update project with results" failOk

/-- The sequence of successfully persisted updates of one run of
`generate_project_async` (`main.rs`), as a function of the database outcomes
(`genOk` for the `Generating` update, `completeOk` for the `Completed` update,
`failOk` for the `mark_project_failed` update) and the AI-core response. If the
`Generating` update fails the task returns at once. -/
def generate_project_async_updates (resp : AiCoreResponse)
    (genOk completeOk failOk : Bool) : List ProjectUpdate :=
  if genOk then
    generatingUpdate ::
      (match resp with
       | .json data => update_project_with_results_updates data completeOk failOk
       | .unparseable => mark_project_failed_updates "Failed to parse AI core response" failOk
       | .badStatus => mark_project_failed_updates "AI core returned error" failOk
       | .sendError => mark_project_failed_updates "Failed to connect to AI core" failOk)
  else []

/-- All intermediate states of the stored record while a list of updates is
applied in order. -/
def recordTrace (now : Nat) : ProjectRecord → List ProjectUpdate → List ProjectRecord
  | r, [] => [r]
  | r, u :: us => r :: recordTrace now (applyProjectUpdate r u now) us

/-- The stored record after a list of updates is applied in order. -/
def finalRecord (now : Nat) (r : ProjectRecord) (us : List ProjectUpdate) : ProjectRecord :=
  us.foldl (fun rec u => applyProjectUpdate rec u now) r

/-- The sequence of statuses the stored record passes through. -/
def statusTrace (now : Nat) (r : ProjectRecord) (us : List ProjectUpdate) :
    List ProjectStatus :=
  (recordTrace now r us).map ProjectRecord.status

/-- A terminal status: `Completed` or `Failed`. -/
def statusTerminal (s : ProjectStatus) : Bool :=
  s == ProjectStatus.Completed || s == ProjectStatus.Failed

/-- One forward step along the lifecycle path
`Pending → Generating → Completed or Failed`: either the status is
unchanged, or it advances along an edge of the path. A terminal status
admits no step to a different status. -/
def statusForward (s t : ProjectStatus) : Bool :=
  s == t
    || (s == ProjectStatus.Pending && t == ProjectStatus.Generating)
    || (s == ProjectStatus.Generating
          && (t == ProjectStatus.Completed || t == ProjectStatus.Failed))

/-- Every consecutive pair of the list is a forward step. -/
def forwardChain : List ProjectStatus → Bool
  | [] => true
  | [_] => true
  | s :: t :: rest => statusForward s t && forwardChain (t :: rest)

/-- A `files` entry has all three required string fields
(`name`, `content`, `language`). -/
def fileSchemaOk (j : JsonVal) : Bool :=
  ((j.get "name").bind JsonVal.as_str).isSome
    && ((j.get "content").bind JsonVal.as_str).isSome
    && ((j.get "language").bind JsonVal.as_str).isSome

/-- Modelled from the spec: the expected schema of a Generation Service success
response (§4.2, §9) — a `data` object with a `files` array whose entries all
carry string `name`, `content` and `language`, and a string `output`. -/
def matchesExpectedSchema (j : JsonVal) : Bool :=
  match j.get "data" with
  | some d =>
      (match (d.get "files").bind JsonVal.as_array with
       | some elems => elems.all fileSchemaOk
       | none => false)
      && ((d.get "output").bind JsonVal.as_str).isSome
  | none => false

/-- The file a schema-conforming entry is turned into by
`update_project_with_results`. -/
def fileOfJson (j : JsonVal) : GeneratedFile :=
  { name := ((j.get "name").bind JsonVal.as_str).getD ""
    content := ((j.get "content").bind JsonVal.as_str).getD ""
    language := ((j.get "language").bind JsonVal.as_str).getD ""
    size := none
    last_modified := none }

/-- Concrete response file entry used to exercise the completion path. -/
def c7File1 : JsonVal :=
  .obj [("name", .str "main.rs"), ("content", .str "fn main()"), ("language", .str "rust")]

/-- Second concrete response file entry. -/
def c7File2 : JsonVal :=
  .obj [("name", .str "lib.rs"), ("content", .str "pub fn run()"), ("language", .str "rust")]

/-- Concrete `data` object of a well-formed success response with two files. -/
def c7Inner : JsonVal :=
  .obj [("files", .arr [c7File1, c7File2]), ("output", .str "generated 2 files")]

/-- Concrete well-formed success response with two files. -/
def c7Data : JsonVal :=
  .obj [("data", c7Inner)]

/-- Concrete stored record awaiting results. -/
def c7Record : ProjectRecord :=
  ProjectRecord.new "job-7" "build a small rust tool" "ollama" 0

/-- `HealthResponse` from `models.rs`; the services `HashMap` modelled as an
association list in insertion order. -/
structure HealthResponse where
  status : String
  timestamp : Nat
  services : List (String × String)

/-- The `health` handler wired to `/health` in `main.rs`: it inserts
"backend" → "healthy" and the probed AI-core status string, and sets the
top-level `status` field to the constant "healthy" regardless of the probes. -/
def mainHealth (ai_core_status : String) (now : Nat) : HealthResponse :=
  { status := "healthy"
    timestamp := now
    services := [("backend", "healthy"), ("ai_core", ai_core_status)] }

/-- `ServiceHealth` from `health.rs`; the `f64` response time abstracted to a
`Nat` measurement. -/
structure ServiceHealth where
  status : String
  response_time : Option Nat
  last_check : Nat
  error : Option String

/-- Outcome of one dependent-service probe (`check_ai_core_health` /
`check_ollama_health` in `health.rs`). -/
inductive ProbeResult
  | ok
  | httpError (code : Nat)
  | connectError (msg : String)
  | timedOut

/-- The `ServiceHealth` a probe outcome is recorded as; both probe functions in
`health.rs` share this shape. -/
def serviceHealthOf (p : ProbeResult) (rt now : Nat) : ServiceHealth :=
  match p with
  | .ok =>
      { status := "healthy", response_time := some rt, last_check := now, error := none }
  | .httpError code =>
      { status := "unhealthy", response_time := some rt, last_check := now
        error := some ("HTTP " ++ toString code) }
  | .connectError msg =>
      { status := "unhealthy", response_time := some rt, last_check := now
        error := some msg }
  | .timedOut =>
      { status := "unhealthy", response_time := some rt, last_check := now
        error := some "Timeout" }

/-- `HealthStatus` from `health.rs` (uptime and the placeholder system info of
`get_system_info` omitted; they carry no health information). -/
structure HealthStatus where
  status : String
  timestamp : Nat
  version : String
  services : List (String × ServiceHealth)

/-- `health_check` from `health.rs`: probes `ai_core` and `ollama`, and reports
overall "healthy" exactly when every probe result is "healthy", else
"degraded". This function is not referenced from `main.rs`. -/
def health_check (aiCore ollama : ProbeResult) (rtA rtO now : Nat)
    (version : String) : HealthStatus :=
  let services := [("ai_core", serviceHealthOf aiCore rtA now),
                   ("ollama", serviceHealthOf ollama rtO now)]
  let overall := if services.all (fun p => p.2.status == "healthy")
    then "healthy" else "degraded"
  { status := overall, timestamp := now, version := version, services := services }

/-- `RateLimiter` from `validation.rs`: the `HashMap<String, Vec<Instant>>`
window map modelled as a total function (missing keys read as the empty list),
instants as `Nat` timestamps. -/
structure RateLimiter where
  requests : String → List Nat
  max_requests : Nat
  window_duration : Nat

/-- `RateLimiter::new`. -/
def RateLimiter.new (max_requests window_duration : Nat) : RateLimiter :=
  { requests := fun _ => []
    max_requests := max_requests
    window_duration := window_duration }

/-- The retain step of `is_allowed` and the filter of `get_remaining_requests`:
keep timestamps whose age is strictly under the window. `duration_since`
saturates at zero for future instants, as does `Nat` subtraction. -/
def pruneWindow (now window : Nat) (ts : List Nat) : List Nat :=
  ts.filter (fun t => now - t < window)

/-- `RateLimiter::is_allowed` from `validation.rs`: prune the client's window;
if the pruned count has reached `max_requests`, deny without recording,
otherwise push `now` and allow. Returns the decision and the updated limiter
(the mutation performed under the lock). -/
def RateLimiter.is_allowed (rl : RateLimiter) (client : String) (now : Nat) :
    Bool × RateLimiter :=
  let pruned := pruneWindow now rl.window_duration (rl.requests client)
  if rl.max_requests ≤ pruned.length then
    (false, { rl with requests := fun c => if c = client then pruned else rl.requests c })
  else
    (true, { rl with requests := fun c => if c = client then pruned ++ [now] else rl.requests c })

/-- `RateLimiter::get_remaining_requests` from `validation.rs`:
`max_requests.saturating_sub(unexpired count)`. The source only reads the map;
accordingly the embedding returns a count and no successor state. -/
def RateLimiter.get_remaining_requests (rl : RateLimiter) (client : String)
    (now : Nat) : Nat :=
  rl.max_requests - (pruneWindow now rl.window_duration (rl.requests client)).length

/-- `n` consecutive `is_allowed` calls for one client at one instant. -/
def RateLimiter.callN (rl : RateLimiter) (client : String) (now : Nat) : Nat → RateLimiter
  | 0 => rl
  | k + 1 => ((RateLimiter.callN rl client now k).is_allowed client now).2

end Genesis

/-- C1: the claim says every job record is created with status `Pending`;
`ProjectRecord::new` in `models.rs` actually sets `Generating` at creation,
so the record created by submit is `Generating`, never `Pending`. -/
theorem c1_created_record_status_is_generating :
    (Genesis.ProjectRecord.new "job-1" "build a todo app" "ollama" 0).status
      = Genesis.ProjectStatus.Generating
    ∧ Genesis.ProjectStatus.Generating ≠ Genesis.ProjectStatus.Pending :=
  ⟨rfl, by decide⟩

/-- C2: the claim says submit rejects an empty/invalid prompt before any job
record is created; the `generate_project` handler in `main.rs` performs no
validation: for the empty prompt it persists a job record and spawns the
asynchronous task, even though `validate_generate_request` in the (unwired)
`validation.rs` module would have rejected that prompt. -/
theorem c2_submit_persists_job_for_empty_prompt :
    (Genesis.generate_project ⟨"", none⟩ "job-1" 0 true).persisted = true
    ∧ (Genesis.generate_project ⟨"", none⟩ "job-1" 0 true).spawned
        = some ("job-1", "", "ollama")
    ∧ Genesis.validate_generate_request ⟨"", none⟩
        = Except.error "prompt: Prompt must be between 10 and 2000 characters" :=
  ⟨rfl, rfl, rfl⟩

/-- C10: a submit request that omits `backend` creates the job with backend
"ollama", and the spawned generation task receives the same "ollama" value
(`generate_project` in `main.rs` defaults the field twice with
`unwrap_or("ollama")`). -/
theorem c10_omitted_backend_defaults_to_ollama :
    ∀ (prompt pid : String) (now : Nat),
      (Genesis.generate_project ⟨prompt, none⟩ pid now true).insertAttempt.backend = "ollama"
      ∧ (Genesis.generate_project ⟨prompt, none⟩ pid now true).spawned
          = some (pid, prompt, "ollama") :=
  fun _ _ _ => ⟨rfl, rfl⟩

/-- C3: over every possible run of the asynchronous processing task (any AI-core
response, any database outcomes), the stored record's status sequence only
moves forward along `Pending → Generating → Completed or Failed`; since a
forward step from a terminal status only reaches the same status, no step
changes a terminal status. -/
theorem c3_status_trace_moves_forward :
    ∀ (resp : Genesis.AiCoreResponse) (genOk completeOk failOk : Bool)
      (pid prompt backend : String) (now now2 : Nat),
      Genesis.forwardChain
        (Genesis.statusTrace now2 (Genesis.ProjectRecord.new pid prompt backend now)
          (Genesis.generate_project_async_updates resp genOk completeOk failOk)) = true := by
  intro resp genOk completeOk failOk pid prompt backend now now2
  cases resp <;> cases genOk <;> cases completeOk <;> cases failOk <;>
    simp [Genesis.forwardChain, Genesis.statusTrace, Genesis.recordTrace,
      Genesis.generate_project_async_updates, Genesis.update_project_with_results_updates,
      Genesis.mark_project_failed_updates, Genesis.applyProjectUpdate,
      Genesis.ProjectRecord.new, Genesis.generatingUpdate, Genesis.completedUpdate,
      Genesis.failedUpdate, Genesis.statusForward]

/-- C4 counterexample: the body `\x7b\x7d` is valid JSON that does not match the
expected schema, yet the processing task drives the job to `Completed`
(with silently defaulted empty files and output), not to `Failed`. -/
theorem c4_counterexample_schemaless_body_completes :
    Genesis.matchesExpectedSchema (Genesis.JsonVal.obj []) = false
    ∧ (Genesis.finalRecord 1
        (Genesis.ProjectRecord.new "job-4" "build a web app" "ollama" 0)
        (Genesis.generate_project_async_updates
          (Genesis.AiCoreResponse.json (Genesis.JsonVal.obj [])) true true true)).status
        = Genesis.ProjectStatus.Completed :=
  ⟨rfl, rfl⟩

/-- C4 amended: only a body that fails to parse as JSON makes the task mark the
job `Failed` with the parse-failure description in `output`; any body that
parses as JSON — whether or not it matches the expected schema — is treated as
success: missing fields are silently defaulted and the job is marked
`Completed` (database updates succeeding). -/
theorem c4_amended_unparseable_fails_parsed_completes :
    ∀ (data : Genesis.JsonVal) (pid prompt backend : String) (now now2 : Nat),
      (Genesis.finalRecord now2 (Genesis.ProjectRecord.new pid prompt backend now)
        (Genesis.generate_project_async_updates Genesis.AiCoreResponse.unparseable
          true true true)).status = Genesis.ProjectStatus.Failed
      ∧ (Genesis.finalRecord now2 (Genesis.ProjectRecord.new pid prompt backend now)
          (Genesis.generate_project_async_updates Genesis.AiCoreResponse.unparseable
            true true true)).output = "Failed to parse AI core response"
      ∧ (Genesis.finalRecord now2 (Genesis.ProjectRecord.new pid prompt backend now)
          (Genesis.generate_project_async_updates (Genesis.AiCoreResponse.json data)
            true true true)).status = Genesis.ProjectStatus.Completed
      ∧ (Genesis.finalRecord now2 (Genesis.ProjectRecord.new pid prompt backend now)
          (Genesis.generate_project_async_updates (Genesis.AiCoreResponse.json data)
            true true true)).files = Genesis.extractFiles data :=
  fun _ _ _ _ _ _ => ⟨rfl, rfl, rfl, rfl⟩

/-- Helper: a schema-conforming entry parses to exactly `fileOfJson`. -/
theorem parseFile_of_fileSchemaOk (j : Genesis.JsonVal)
    (h : Genesis.fileSchemaOk j = true) :
    Genesis.parseFile j = some (Genesis.fileOfJson j) := by
  cases hn : (j.get "name").bind Genesis.JsonVal.as_str with
  | none => simp [Genesis.fileSchemaOk, hn] at h
  | some n =>
    cases hc : (j.get "content").bind Genesis.JsonVal.as_str with
    | none => simp [Genesis.fileSchemaOk, hn, hc] at h
    | some c =>
      cases hl : (j.get "language").bind Genesis.JsonVal.as_str with
      | none => simp [Genesis.fileSchemaOk, hn, hc, hl] at h
      | some l =>
        unfold Genesis.parseFile
        rw [hn, hc, hl]
        simp [Genesis.fileOfJson, hn, hc, hl]

/-- Helper: on a list of schema-conforming entries, `filterMap parseFile` keeps
every entry, in order. -/
theorem filterMap_parseFile_of_all (elems : List Genesis.JsonVal)
    (h : ∀ j ∈ elems, Genesis.fileSchemaOk j = true) :
    elems.filterMap Genesis.parseFile = elems.map Genesis.fileOfJson := by
  induction elems with
  | nil => rfl
  | cons a as ih =>
      rw [List.filterMap_cons, parseFile_of_fileSchemaOk a (h a (by simp))]
      rw [List.map_cons, ih (fun j hj => h j (by simp [hj]))]

/-- C7: for a success response matching the expected schema with N files, the
single persisted update carries status `Completed`, exactly those N files in
the same order, and the extracted output, together; applying it makes the
stored record `Completed` with those files and output at once. -/
theorem c7_success_response_completes_with_files_in_order :
    ∀ (data d : Genesis.JsonVal) (elems : List Genesis.JsonVal) (out : String)
      (r : Genesis.ProjectRecord) (now : Nat),
      data.get "data" = some d →
      d.get "files" = some (Genesis.JsonVal.arr elems) →
      (∀ j ∈ elems, Genesis.fileSchemaOk j = true) →
      d.get "output" = some (Genesis.JsonVal.str out) →
      Genesis.completedUpdate data =
        { status := some Genesis.ProjectStatus.Completed
          files := some (elems.map Genesis.fileOfJson)
          output := some out
          metadata := none }
      ∧ (Genesis.extractFiles data).length = elems.length
      ∧ (Genesis.applyProjectUpdate r (Genesis.completedUpdate data) now).status
          = Genesis.ProjectStatus.Completed
      ∧ (Genesis.applyProjectUpdate r (Genesis.completedUpdate data) now).files
          = elems.map Genesis.fileOfJson
      ∧ (Genesis.applyProjectUpdate r (Genesis.completedUpdate data) now).output = out := by
  intro data d elems out r now h1 h2 h3 h4
  have hfiles : Genesis.extractFiles data = elems.map Genesis.fileOfJson := by
    simp [Genesis.extractFiles, h1, h2, Genesis.JsonVal.as_array,
      filterMap_parseFile_of_all elems h3]
  have hout : Genesis.extractOutput data = out := by
    simp [Genesis.extractOutput, h1, h4, Genesis.JsonVal.as_str]
  refine ⟨?_, ?_, ?_, ?_, ?_⟩
  · simp [Genesis.completedUpdate, hfiles, hout]
  · simp [hfiles]
  · rfl
  · simp [Genesis.applyProjectUpdate, Genesis.completedUpdate, hfiles]
  · simp [Genesis.applyProjectUpdate, Genesis.completedUpdate, hout]

/-- Witness for C7 at a concrete two-file response. -/
theorem c7_witness :
    Genesis.completedUpdate Genesis.c7Data =
      { status := some Genesis.ProjectStatus.Completed
        files := some ([Genesis.c7File1, Genesis.c7File2].map Genesis.fileOfJson)
        output := some "generated 2 files"
        metadata := none }
    ∧ (Genesis.extractFiles Genesis.c7Data).length = [Genesis.c7File1, Genesis.c7File2].length
    ∧ (Genesis.applyProjectUpdate Genesis.c7Record (Genesis.completedUpdate Genesis.c7Data) 5).status
        = Genesis.ProjectStatus.Completed
    ∧ (Genesis.applyProjectUpdate Genesis.c7Record (Genesis.completedUpdate Genesis.c7Data) 5).files
        = [Genesis.c7File1, Genesis.c7File2].map Genesis.fileOfJson
    ∧ (Genesis.applyProjectUpdate Genesis.c7Record (Genesis.completedUpdate Genesis.c7Data) 5).output
        = "generated 2 files" :=
  c7_success_response_completes_with_files_in_order
    Genesis.c7Data Genesis.c7Inner [Genesis.c7File1, Genesis.c7File2] "generated 2 files"
    Genesis.c7Record 5 rfl rfl (by decide) rfl

/-- C8: the `Failed` update of `mark_project_failed`, applied with the partial
`$set` semantics of `update_project`, sets status `Failed`, overwrites `output`
with the failure description, refreshes `updated_at`, and leaves every other
field — `files` included — unchanged. -/
theorem c8_mark_failed_frame :
    ∀ (r : Genesis.ProjectRecord) (msg : String) (now : Nat),
      (Genesis.applyProjectUpdate r (Genesis.failedUpdate msg) now).status
          = Genesis.ProjectStatus.Failed
      ∧ (Genesis.applyProjectUpdate r (Genesis.failedUpdate msg) now).output = msg
      ∧ (Genesis.applyProjectUpdate r (Genesis.failedUpdate msg) now).updated_at = now
      ∧ (Genesis.applyProjectUpdate r (Genesis.failedUpdate msg) now).files = r.files
      ∧ (Genesis.applyProjectUpdate r (Genesis.failedUpdate msg) now).id = r.id
      ∧ (Genesis.applyProjectUpdate r (Genesis.failedUpdate msg) now).project_id = r.project_id
      ∧ (Genesis.applyProjectUpdate r (Genesis.failedUpdate msg) now).prompt = r.prompt
      ∧ (Genesis.applyProjectUpdate r (Genesis.failedUpdate msg) now).created_at = r.created_at
      ∧ (Genesis.applyProjectUpdate r (Genesis.failedUpdate msg) now).backend = r.backend
      ∧ (Genesis.applyProjectUpdate r (Genesis.failedUpdate msg) now).metadata = r.metadata :=
  fun _ _ _ => ⟨rfl, rfl, rfl, rfl, rfl, rfl, rfl, rfl, rfl, rfl⟩

/-- C5: the claim says the reported overall status is "healthy" only if every
probe is healthy and "degraded" otherwise. The handler wired to `/health` in
`main.rs` reports "healthy" unconditionally — even when the AI-core probe is
unreachable — while the unwired `health_check` in `health.rs` does implement
the claimed aggregation with per-service error descriptions. -/
theorem c5_health_overall_divergence :
    ∀ (aiStatus : String) (now : Nat),
      (Genesis.mainHealth aiStatus now).status = "healthy"
      ∧ (Genesis.health_check (Genesis.ProbeResult.connectError "connection refused")
          Genesis.ProbeResult.ok 0 0 0 "0.1.0").status = "degraded"
      ∧ ((Genesis.health_check (Genesis.ProbeResult.connectError "connection refused")
          Genesis.ProbeResult.ok 0 0 0 "0.1.0").services.map
            (fun p => (p.1, p.2.status, p.2.error)))
          = [("ai_core", "unhealthy", some "connection refused"),
             ("ollama", "healthy", none)] :=
  fun _ _ => ⟨rfl, rfl, rfl⟩

/-- Helper: pruning a window of timestamps equal to `now` keeps all of them
when the window is positive. -/
theorem pruneWindow_replicate (now window k : Nat) (hw : 0 < window) :
    Genesis.pruneWindow now window (List.replicate k now) = List.replicate k now := by
  unfold Genesis.pruneWindow
  rw [List.filter_eq_self]
  intro a ha
  rw [List.eq_of_mem_replicate ha]
  simp only [Nat.sub_self, decide_eq_true_eq]
  exact hw

/-- Helper: state reached by `k ≤ max_requests` same-instant calls on a fresh
limiter: the client's window holds `k` copies of `now` and the configuration
is unchanged. -/
theorem callN_fresh_state (maxR window : Nat) (c : String) (now : Nat) (hw : 0 < window) :
    ∀ k, k ≤ maxR →
      ((Genesis.RateLimiter.new maxR window).callN c now k).requests c
          = List.replicate k now
      ∧ ((Genesis.RateLimiter.new maxR window).callN c now k).max_requests = maxR
      ∧ ((Genesis.RateLimiter.new maxR window).callN c now k).window_duration = window := by
  intro k
  induction k with
  | zero => exact fun _ => ⟨rfl, rfl, rfl⟩
  | succ k ih =>
    intro hk
    obtain ⟨hreq, hmax, hwin⟩ := ih (Nat.le_of_succ_le hk)
    have hstep : ((Genesis.RateLimiter.new maxR window).callN c now (k+1))
        = (((Genesis.RateLimiter.new maxR window).callN c now k).is_allowed c now).2 := rfl
    rw [hstep]
    unfold Genesis.RateLimiter.is_allowed
    rw [hreq, hmax, hwin, pruneWindow_replicate now window k hw]
    have hnot : ¬ maxR ≤ (List.replicate k now).length := by
      simp only [List.length_replicate]
      omega
    rw [if_neg hnot]
    refine ⟨?_, rfl, rfl⟩
    simp [List.replicate_succ']

/-- C6: `is_allowed` prunes stale timestamps, allows exactly when the pruned
count is under `max_requests` (recording `now`), denies without recording
otherwise; consequently on a fresh limiter the first `max_requests` same-window
calls are allowed and the next is denied. -/
theorem c6_rate_limiter_admission :
    ∀ (rl : Genesis.RateLimiter) (c : String) (now maxR window k : Nat),
      ((rl.is_allowed c now).1
          = decide ((Genesis.pruneWindow now rl.window_duration (rl.requests c)).length
              < rl.max_requests))
      ∧ ((rl.is_allowed c now).1 = true →
          (rl.is_allowed c now).2.requests c
            = Genesis.pruneWindow now rl.window_duration (rl.requests c) ++ [now])
      ∧ ((rl.is_allowed c now).1 = false →
          (rl.is_allowed c now).2.requests c
            = Genesis.pruneWindow now rl.window_duration (rl.requests c))
      ∧ (0 < window → k < maxR →
          (((Genesis.RateLimiter.new maxR window).callN c now k).is_allowed c now).1 = true)
      ∧ (0 < window →
          (((Genesis.RateLimiter.new maxR window).callN c now maxR).is_allowed c now).1
            = false) := by
  intro rl c now maxR window k
  refine ⟨?_, ?_, ?_, ?_, ?_⟩
  · unfold Genesis.RateLimiter.is_allowed
    by_cases h : rl.max_requests
        ≤ (Genesis.pruneWindow now rl.window_duration (rl.requests c)).length
    · rw [if_pos h]
      simp [Nat.not_lt.mpr h]
    · rw [if_neg h]
      simp [lt_of_not_le h]
  · unfold Genesis.RateLimiter.is_allowed
    by_cases h : rl.max_requests
        ≤ (Genesis.pruneWindow now rl.window_duration (rl.requests c)).length
    · rw [if_pos h]
      intro hfalse
      exact absurd hfalse (by simp)
    · rw [if_neg h]
      intro _
      simp
  · unfold Genesis.RateLimiter.is_allowed
    by_cases h : rl.max_requests
        ≤ (Genesis.pruneWindow now rl.window_duration (rl.requests c)).length
    · rw [if_pos h]
      intro _
      simp
    · rw [if_neg h]
      intro htrue
      exact absurd htrue (by simp)
  · intro hw hk
    obtain ⟨hreq, hmax, hwin⟩ :=
      callN_fresh_state maxR window c now hw k (Nat.le_of_lt hk)
    unfold Genesis.RateLimiter.is_allowed
    rw [hreq, hmax, hwin, pruneWindow_replicate now window k hw]
    have hnot : ¬ maxR ≤ (List.replicate k now).length := by
      simp only [List.length_replicate]
      omega
    rw [if_neg hnot]
  · intro hw
    obtain ⟨hreq, hmax, hwin⟩ :=
      callN_fresh_state maxR window c now hw maxR (Nat.le_refl maxR)
    unfold Genesis.RateLimiter.is_allowed
    rw [hreq, hmax, hwin, pruneWindow_replicate now window maxR hw]
    have hyes : maxR ≤ (List.replicate maxR now).length := by
      simp
    rw [if_pos hyes]

/-- Witness for C6: with `max_requests = 5` and a 60-second window, the fifth
same-instant call on a fresh limiter is allowed and the sixth is denied. -/
theorem c6_witness :
    (((Genesis.RateLimiter.new 5 60).callN "client-a" 0 4).is_allowed "client-a" 0).1 = true
    ∧ (((Genesis.RateLimiter.new 5 60).callN "client-a" 0 5).is_allowed "client-a" 0).1
        = false :=
  ⟨(c6_rate_limiter_admission (Genesis.RateLimiter.new 5 60) "client-a" 0 5 60 4).2.2.2.1
      (by decide) (by decide),
   (c6_rate_limiter_admission (Genesis.RateLimiter.new 5 60) "client-a" 0 5 60 4).2.2.2.2
      (by decide)⟩

/-- C9: `get_remaining_requests` equals `max_requests` minus the unexpired
count, floored at zero (stated over the integers), never exceeds
`max_requests`, and after `n ≤ max_requests` admitted same-window calls on a
fresh limiter it equals `max_requests - n`. The source function only reads the
window map; its embedding returns a count and no successor state. -/
theorem c9_remaining_requests :
    ∀ (rl : Genesis.RateLimiter) (c : String) (now maxR window n : Nat),
      ((rl.get_remaining_requests c now : Int)
          = max 0 ((rl.max_requests : Int)
              - ((Genesis.pruneWindow now rl.window_duration (rl.requests c)).length : Int)))
      ∧ rl.get_remaining_requests c now ≤ rl.max_requests
      ∧ (0 < window → n ≤ maxR →
          ((Genesis.RateLimiter.new maxR window).callN c now n).get_remaining_requests c now
            = maxR - n) := by
  intro rl c now maxR window n
  refine ⟨?_, ?_, ?_⟩
  · unfold Genesis.RateLimiter.get_remaining_requests
    omega
  · unfold Genesis.RateLimiter.get_remaining_requests
    omega
  · intro hw hn
    obtain ⟨hreq, hmax, hwin⟩ := callN_fresh_state maxR window c now hw n hn
    unfold Genesis.RateLimiter.get_remaining_requests
    rw [hreq, hmax, hwin, pruneWindow_replicate now window n hw]
    simp only [List.length_replicate]

/-- Witness for C9: after 3 admitted calls on a fresh limiter with
`max_requests = 5`, 2 requests remain. -/
theorem c9_witness :
    ((Genesis.RateLimiter.new 5 60).callN "client-b" 0 3).get_remaining_requests "client-b" 0
      = 5 - 3 :=
  (c9_remaining_requests (Genesis.RateLimiter.new 5 60) "client-b" 0 5 60 3).2.2
    (by decide) (by decide)
